import Mathlib

/-!
Verification of the token/AST/parser front end of the `interpreter_rust`
repository (files `src/token.rs`, `src/ast.rs`, `src/parser.rs`), as a shallow
embedding in Lean.

Modelling conventions:

* The `lexer` module is referenced by `parser.rs` but its source is not part of
  the repository snapshot.  Following the spec's Scanner contract (pull-based,
  one token per call, and after end of input every further call returns an
  `EndOfFile` token with empty literal, indefinitely), the lexer is modelled as
  a `List Token`; pulling from the empty list yields `⟨Eof, ""⟩` forever.
* Parser methods that mutate `&mut self` are modelled as explicit state-passing
  functions `Parser → α × Parser`.
* The two `while !self.cur_token_is(Semicolon)` loops and the `parse_program`
  loop have no structural termination argument in the source, so they are
  modelled with an explicit fuel parameter; an outer `none` result means the
  fuel was exhausted (the source loop would still be running), and `some`
  means the source loop finished with that result.
* `ExpressionNode`'s `Node` impl in `ast.rs` matches only the
  `IdentifierNode` and `Integer` variants; the `Prefic` variant has no match
  arm (a non-exhaustive match).  The missing arm is modelled by returning
  `none` on that variant, and the dispatching renderers propagate that `none`.
* `PrefixExpression::token_literal` is the unconditional self-call
  `self.token_literal().clone()`; it is modelled fuel-indexed, every call
  consuming one unit of fuel, so `none` for every fuel value means no amount
  of unfolding reaches a result.
-/

namespace Monkey

/-- TokenKind from `src/token.rs`: the closed enumeration of lexical classes. -/
inductive TokenKind where
  | Illegal
  | Eof
  | Ident
  | Int
  | Assign
  | Plus
  | Minus
  | Bang
  | Asteriks
  | Slash
  | Lt
  | Gt
  | Comma
  | Semicolon
  | Lparen
  | Rparen
  | Lbrace
  | Rbrace
  | Function
  | Let
  | If
  | Else
  | Return
  | True
  | False
deriving DecidableEq, Repr

/-- The `Display` impl for `TokenKind` in `src/token.rs` (note that the
keyword/punctuation variants print their enum name while the operator variants
print their symbol, exactly as in the source). -/
def TokenKind.display : TokenKind → String
  | .Illegal => "Illegal"
  | .Eof => "Eof"
  | .Ident => "Ident"
  | .Int => "Int"
  | .Assign => "Assign"
  | .Plus => "Plus"
  | .Comma => "Comma"
  | .Semicolon => "Semicolon"
  | .Lparen => "Lparen"
  | .Rparen => "Rparen"
  | .Lbrace => "Lbrace"
  | .Rbrace => "Rbrace"
  | .Function => "Function"
  | .Let => "Let"
  | .Minus => "-"
  | .Bang => "!"
  | .Asteriks => "*"
  | .Slash => "/"
  | .Lt => "<"
  | .Gt => ">"
  | .If => "If"
  | .Else => "Else"
  | .Return => "Return"
  | .True => "True"
  | .False => "False"

/-- Token from `src/token.rs`: a kind plus the literal source text. -/
structure Token where
  kind : TokenKind
  literal : String
deriving DecidableEq, Repr

/-- Identifier AST node from `src/ast.rs`. -/
structure Identifier where
  token : Token
  value : String
deriving DecidableEq, Repr

/-- IntegerLiteral AST node from `src/ast.rs` (`value: i64`). -/
structure IntegerLiteral where
  token : Token
  value : Int
deriving DecidableEq, Repr

/-- ExpressionNode from `src/ast.rs`.  The `Prefic` variant (the source's
spelling) carries the fields of the boxed `PrefixExpression` struct inline,
since the box is just recursive ownership. -/
inductive ExpressionNode where
  | IdentifierNode (ident : Identifier)
  | Integer (int : IntegerLiteral)
  | Prefic (token : Token) (operator : String) (right : ExpressionNode)
deriving DecidableEq, Repr

/-- PrefixExpression struct from `src/ast.rs` (`right: Box<ExpressionNode>`). -/
structure PrefixExpression where
  token : Token
  operator : String
  right : ExpressionNode
deriving DecidableEq, Repr

/-- View of a `PrefixExpression` struct as the `ExpressionNode::Prefic`
variant that would carry it. -/
def PrefixExpression.toExpressionNode (p : PrefixExpression) : ExpressionNode :=
  .Prefic p.token p.operator p.right

/-- Identifier::token_literal from `src/ast.rs`. -/
def Identifier.token_literal (i : Identifier) : String :=
  i.token.literal

/-- Identifier::print_string from `src/ast.rs`. -/
def Identifier.print_string (i : Identifier) : String :=
  i.value

/-- IntegerLiteral::token_literal from `src/ast.rs`. -/
def IntegerLiteral.token_literal (i : IntegerLiteral) : String :=
  i.token.literal

/-- IntegerLiteral::print_string from `src/ast.rs` (returns the token
literal). -/
def IntegerLiteral.print_string (i : IntegerLiteral) : String :=
  i.token_literal

/-- The `Node` impl for `ExpressionNode` in `src/ast.rs` matches only
`IdentifierNode` and `Integer`; there is no arm for `Prefic`
(a non-exhaustive match in the source), modelled as `none`. -/
def ExpressionNode.token_literal : ExpressionNode → Option String
  | .IdentifierNode ident => some ident.token_literal
  | .Integer int => some int.token_literal
  | .Prefic _ _ _ => none

/-- ExpressionNode::print_string from `src/ast.rs`: dispatches on the variant;
as with `token_literal`, the source match has no arm for `Prefic`, modelled as
`none`. -/
def ExpressionNode.print_string : ExpressionNode → Option String
  | .IdentifierNode ident => some ident.print_string
  | .Integer int => some int.print_string
  | .Prefic _ _ _ => none

/-- PrefixExpression::print_string from `src/ast.rs`:
`"(" + operator + right.print_string() + ")"`, where `right.print_string()`
goes through the `ExpressionNode` dispatch (so a `none` from a missing arm
propagates). -/
def PrefixExpression.print_string (p : PrefixExpression) : Option String :=
  (ExpressionNode.print_string p.right).map
    (fun s => "(" ++ p.operator ++ s ++ ")")

/-- PrefixExpression::token_literal from `src/ast.rs`: the body is
`self.token_literal().clone()` — an unconditional call to the very same
method with no base case.  Fuel-indexed: each call consumes one unit of fuel,
and `none` means the unfolding never produced a value. -/
def PrefixExpression.token_literal : Nat → PrefixExpression → Option String
  | 0, _ => none
  | fuel + 1, p => PrefixExpression.token_literal fuel p

/-- LetStatement from `src/ast.rs` (`value: Option<ExpressionNode>`). -/
structure LetStatement where
  token : Token
  name : Identifier
  value : Option ExpressionNode
deriving DecidableEq, Repr

/-- ReturnStatement from `src/ast.rs`. -/
structure ReturnStatement where
  token : Token
  ret_value : Option ExpressionNode
deriving DecidableEq, Repr

/-- ExpressionStatement from `src/ast.rs`. -/
structure ExpressionStatement where
  token : Token
  expression : Option ExpressionNode
deriving DecidableEq, Repr

/-- StatementNode from `src/ast.rs`. -/
inductive StatementNode where
  | Let (s : LetStatement)
  | Return (s : ReturnStatement)
  | Expression (s : ExpressionStatement)
deriving DecidableEq, Repr

/-- LetStatement::token_literal from `src/ast.rs`. -/
def LetStatement.token_literal (s : LetStatement) : String :=
  s.token.literal

/-- LetStatement::print_string from `src/ast.rs`:
`token_literal + " " + name + " = " + [value] + ";"`, pushing the value's
rendering only when the value is present.  A `none` from rendering a present
value (missing dispatch arm) propagates. -/
def LetStatement.print_string (s : LetStatement) : Option String :=
  match s.value with
  | some v =>
      (ExpressionNode.print_string v).map
        (fun vs => s.token_literal ++ " " ++ s.name.print_string ++ " = " ++ vs ++ ";")
  | none => some (s.token_literal ++ " " ++ s.name.print_string ++ " = " ++ ";")

/-- ReturnStatement::token_literal from `src/ast.rs`. -/
def ReturnStatement.token_literal (s : ReturnStatement) : String :=
  s.token.literal

/-- ReturnStatement::print_string from `src/ast.rs`. -/
def ReturnStatement.print_string (s : ReturnStatement) : Option String :=
  match s.ret_value with
  | some v =>
      (ExpressionNode.print_string v).map
        (fun vs => s.token_literal ++ " " ++ vs ++ ";")
  | none => some (s.token_literal ++ " " ++ ";")

/-- ExpressionStatement::token_literal from `src/ast.rs`. -/
def ExpressionStatement.token_literal (s : ExpressionStatement) : String :=
  s.token.literal

/-- ExpressionStatement::print_string from `src/ast.rs`: the expression's
rendering when present, else the empty string. -/
def ExpressionStatement.print_string (s : ExpressionStatement) : Option String :=
  match s.expression with
  | some e => ExpressionNode.print_string e
  | none => some ""

/-- StatementNode::token_literal from `src/ast.rs` (all three arms present). -/
def StatementNode.token_literal : StatementNode → String
  | .Let s => s.token_literal
  | .Return s => s.token_literal
  | .Expression s => s.token_literal

/-- StatementNode::print_string from `src/ast.rs` (all three arms present). -/
def StatementNode.print_string : StatementNode → Option String
  | .Let s => s.print_string
  | .Return s => s.print_string
  | .Expression s => s.print_string

/-- Program from `src/ast.rs`: the root node, an ordered list of statements. -/
structure Program where
  statements : List StatementNode
deriving DecidableEq, Repr

/-- Program::token_literal from `src/ast.rs`: the first statement's token
literal, else the string "value". -/
def Program.token_literal (p : Program) : String :=
  match p.statements with
  | s :: _ => s.token_literal
  | [] => "value"

/-- Program::print_string from `src/ast.rs`: concatenation of every
statement's rendering, in order. -/
def Program.print_string (p : Program) : Option String :=
  p.statements.foldl
    (fun acc s =>
      match acc, s.print_string with
      | some a, some b => some (a ++ b)
      | _, _ => none)
    (some "")

/-- PredenceLevel from `src/parser.rs` (the source's spelling of
"precedence"). -/
inductive PredenceLevel where
  | Lowest
  | Equals
  | LessGreather
  | Sum
  | Product
  | PrefixLevel
  | Call
deriving DecidableEq, Repr

/-- Parser state from `src/parser.rs`: the owned lexer (modelled from the
spec as the remaining token list, Eof-padded on exhaustion), one current
token, one lookahead token, and the growing error list.  The dispatch tables
are fixed at construction (see `prefix_parse_fns`) and therefore not part of
the mutable state. -/
structure Parser where
  lexer : List Token
  cur_token : Token
  peek_token : Token
  errors : List String
deriving DecidableEq, Repr

/-- The value `Default::default()` used to initialise `cur_token` and
`peek_token` in `Parser::new`; both are overwritten by the two `next_token`
calls before any other method runs, so its contents are immaterial. -/
def default_token : Token :=
  ⟨.Illegal, ""⟩

/-- Modelled from the spec: the missing `lexer` module's
`Lexer::next_token`, pulling one token from the stream; after end of input it
returns `EndOfFile` with empty literal, indefinitely. -/
def lexer_next : List Token → Token × List Token
  | [] => (⟨.Eof, ""⟩, [])
  | t :: ts => (t, ts)

/-- Parser::next_token from `src/parser.rs`: current becomes the old peek,
peek is pulled from the lexer. -/
def Parser.next_token (st : Parser) : Parser :=
  { lexer := (lexer_next st.lexer).2
    cur_token := st.peek_token
    peek_token := (lexer_next st.lexer).1
    errors := st.errors }

/-- Parser::new from `src/parser.rs`: default tokens, empty error list, then
two `next_token` calls to populate current and peek. -/
def Parser.new (toks : List Token) : Parser :=
  Parser.next_token (Parser.next_token ⟨toks, default_token, default_token, []⟩)

/-- Parser::peek_token_is from `src/parser.rs`. -/
def Parser.peek_token_is (st : Parser) (token_kind : TokenKind) : Bool :=
  st.peek_token.kind = token_kind

/-- Parser::cur_token_is from `src/parser.rs`. -/
def Parser.cur_token_is (st : Parser) (token_kind : TokenKind) : Bool :=
  st.cur_token.kind = token_kind

/-- Parser::peek_error from `src/parser.rs`: pushes the formatted message
`"expected next token to be {}, got {} intead"` (the source misspells
"instead" as "intead"). -/
def Parser.peek_error (st : Parser) (token_kind : TokenKind) : Parser :=
  { st with
    errors := st.errors ++
      ["expected next token to be " ++ token_kind.display ++ ", got " ++
        st.peek_token.kind.display ++ " intead"] }

/-- Parser::expect_peek from `src/parser.rs`: on a matching lookahead,
advance and return true; otherwise record a peek error and return false. -/
def Parser.expect_peek (st : Parser) (token_kind : TokenKind) : Bool × Parser :=
  if st.peek_token_is token_kind then (true, st.next_token)
  else (false, st.peek_error token_kind)

/-- Parser::parse_identifier from `src/parser.rs`: wraps the current token in
an Identifier expression; consumes nothing. -/
def Parser.parse_identifier (st : Parser) : Option ExpressionNode × Parser :=
  (some (.IdentifierNode ⟨st.cur_token, st.cur_token.literal⟩), st)

/-- The prefix dispatch table as populated by `Parser::new` in
`src/parser.rs`: exactly one registration,
`register_prefix(TokenKind::Ident, Self::parse_identifier)`; every other kind
has no entry.  The table is immutable after construction, so it is a fixed
lookup rather than part of the state. -/
def prefix_parse_fns : TokenKind → Option (Parser → Option ExpressionNode × Parser)
  | .Ident => some Parser.parse_identifier
  | _ => none

/-- Parser::parse_expression from `src/parser.rs`: look up a prefix rule for
the current token kind; if found, invoke it and return its result; otherwise
return `None`.  Note the source records no error and ignores the precedence
argument in this state of the code. -/
def Parser.parse_expression (st : Parser) (precedence_level : PredenceLevel) :
    Option ExpressionNode × Parser :=
  match prefix_parse_fns st.cur_token.kind with
  | some f => f st
  | none => (none, st)

/-- The `while !self.cur_token_is(Semicolon) { self.next_token(); }` loop
shared by `parse_let_statement` and `parse_return_statement` in
`src/parser.rs`, fuel-indexed.  Note the source checks only for `Semicolon`,
not for `Eof`. -/
def Parser.seek_semicolon (fuel : Nat) (st : Parser) : Option Parser :=
  if st.cur_token_is .Semicolon then some st
  else
    match fuel with
    | 0 => none
    | f + 1 => Parser.seek_semicolon f st.next_token

/-- Parser::parse_let_statement from `src/parser.rs`: remembers the `let`
token, requires an `Ident` then an `Assign` by `expect_peek` (returning
`None` on failure), then advances and scans forward to the next semicolon;
the statement's `value` field keeps its `Default::default()`, i.e. `None`. -/
def Parser.parse_let_statement (fuel : Nat) (st : Parser) :
    Option (Option StatementNode × Parser) :=
  let stmt_token := st.cur_token
  match st.expect_peek .Ident with
  | (false, st1) => some (none, st1)
  | (true, st1) =>
    let name : Identifier := ⟨st1.cur_token, st1.cur_token.literal⟩
    match st1.expect_peek .Assign with
    | (false, st2) => some (none, st2)
    | (true, st2) =>
      match Parser.seek_semicolon fuel st2.next_token with
      | none => none
      | some st3 => some (some (.Let ⟨stmt_token, name, none⟩), st3)

/-- Parser::parse_return_statement from `src/parser.rs`: remembers the
`return` token, advances, scans forward to the next semicolon, and returns a
Return statement whose `ret_value` keeps its default `None`. -/
def Parser.parse_return_statement (fuel : Nat) (st : Parser) :
    Option (Option StatementNode × Parser) :=
  let stmt_token := st.cur_token
  match Parser.seek_semicolon fuel st.next_token with
  | none => none
  | some st1 => some (some (.Return ⟨stmt_token, none⟩), st1)

/-- Parser::parse_expression_statement from `src/parser.rs`: builds the
statement from the current token and whatever `parse_expression` returned
(possibly `None`), optionally consumes a trailing semicolon, and always
returns `Some`. -/
def Parser.parse_expression_statement (st : Parser) : Option StatementNode × Parser :=
  let stmt_token := st.cur_token
  match st.parse_expression .Lowest with
  | (exp, st1) =>
    let st2 := if st1.peek_token_is .Semicolon then st1.next_token else st1
    (some (.Expression ⟨stmt_token, exp⟩), st2)

/-- Parser::parse_statement from `src/parser.rs`: dispatch on the current
token kind. -/
def Parser.parse_statement (fuel : Nat) (st : Parser) :
    Option (Option StatementNode × Parser) :=
  match st.cur_token.kind with
  | .Let => Parser.parse_let_statement fuel st
  | .Return => Parser.parse_return_statement fuel st
  | _ => some (Parser.parse_expression_statement st)

/-- The `while self.cur_token.kind != Eof` loop of `Parser::parse_program`
in `src/parser.rs`, fuel-indexed, accumulating the pushed statements. -/
def Parser.parse_program_loop (fuel : Nat) (st : Parser) (acc : List StatementNode) :
    Option (List StatementNode × Parser) :=
  if st.cur_token_is .Eof then some (acc, st)
  else
    match fuel with
    | 0 => none
    | f + 1 =>
      match Parser.parse_statement f st with
      | none => none
      | some (stmtOpt, st1) =>
        let acc1 :=
          match stmtOpt with
          | some s => acc ++ [s]
          | none => acc
        Parser.parse_program_loop f st1.next_token acc1

/-- Parser::parse_program from `src/parser.rs`: run the statement loop from
an empty program; the source's single `return` wraps the program in `Some`
(the inner option mirrors the Rust `Option<Program>` return type; the outer
option is the fuel). -/
def Parser.parse_program (fuel : Nat) (st : Parser) :
    Option (Option Program × Parser) :=
  match Parser.parse_program_loop fuel st [] with
  | none => none
  | some (stmts, st1) => some (some ⟨stmts⟩, st1)

/-- End-to-end run: construct the parser on a token stream (`Parser::new`)
and call `parse_program`. -/
def parse_tokens (fuel : Nat) (toks : List Token) : Option (Option Program × Parser) :=
  Parser.parse_program fuel (Parser.new toks)


/-!
Helper lemmas about the stuck states of the semicolon-seeking loop.  Once the
current and peek tokens are both the padding `Eof` token and the lexer is
exhausted, `next_token` is the identity, so the loop can never reach a
`Semicolon` and exhausts any amount of fuel.
-/

/-- Once current and peek are both the padding Eof token and the lexer is
empty, the semicolon-seeking loop spins in place and exhausts any fuel. -/
theorem seek_semicolon_eof_stuck :
    ∀ (fuel : Nat) (errs : List String),
      Parser.seek_semicolon fuel ⟨[], ⟨.Eof, ""⟩, ⟨.Eof, ""⟩, errs⟩ = none
  | 0, _ => rfl
  | fuel + 1, errs => seek_semicolon_eof_stuck fuel errs

/-- From the state reached inside `parse_return_statement` on the stream
`return 5` (no semicolon), the semicolon-seeking loop exhausts any fuel. -/
theorem seek_semicolon_int_eof (fuel : Nat) :
    Parser.seek_semicolon fuel ⟨[], ⟨.Int, "5"⟩, ⟨.Eof, ""⟩, []⟩ = none := by
  match fuel with
  | 0 => rfl
  | f + 1 => exact seek_semicolon_eof_stuck f []

/-- On the parser state holding `return` with `5` as lookahead and only the
Eof token left in the stream, `parse_return_statement` exhausts any fuel. -/
theorem parse_return_statement_stuck (fuel : Nat) :
    Parser.parse_return_statement fuel
      ⟨[⟨.Eof, ""⟩], ⟨.Return, "return"⟩, ⟨.Int, "5"⟩, []⟩ = none := by
  have h := seek_semicolon_int_eof fuel
  unfold Parser.parse_return_statement
  rw [show Parser.next_token ⟨[⟨.Eof, ""⟩], ⟨.Return, "return"⟩, ⟨.Int, "5"⟩, []⟩ =
        ⟨[], ⟨.Int, "5"⟩, ⟨.Eof, ""⟩, []⟩ from rfl]
  rw [h]

/-- Claim C1: the spec asserts that parsing a bounded token stream always
terminates, in particular the semicolon-seeking loops of
`parse_let_statement`/`parse_return_statement`.  This is false on the code:
on the finite stream `return 5 ⟨eof⟩` (no semicolon after the statement
head), `parse_program` exhausts every fuel amount — the seek loop checks only
for `Semicolon`, and after end of input the lexer yields `Eof` forever, so
the loop never exits.  The code diverges where the spec promises
termination. -/
theorem c1_parse_program_diverges_without_semicolon (fuel : Nat) :
    parse_tokens fuel [⟨.Return, "return"⟩, ⟨.Int, "5"⟩, ⟨.Eof, ""⟩] = none := by
  match fuel with
  | 0 => rfl
  | f + 1 =>
    have h := parse_return_statement_stuck f
    unfold parse_tokens Parser.parse_program
    rw [show Parser.parse_program_loop (f + 1)
          (Parser.new [⟨.Return, "return"⟩, ⟨.Int, "5"⟩, ⟨.Eof, ""⟩]) [] =
        (match Parser.parse_return_statement f
            ⟨[⟨.Eof, ""⟩], ⟨.Return, "return"⟩, ⟨.Int, "5"⟩, []⟩ with
          | none => none
          | some (stmtOpt, st1) =>
            Parser.parse_program_loop f st1.next_token
              (match stmtOpt with
                | some s => [s]
                | none => [])) from rfl]
    rw [h]

/-- Claim C2: the spec's round-trip property says parsing
`let myVar = anotherVar;` yields one Let statement rendering back to the
input.  On the code the parse does succeed with an empty error list and one
Let statement named `myVar`, but `parse_let_statement` never stores the value
expression (it scans to the semicolon and leaves `value` at its default
`None`), so the rendering is `"let myVar = ;"`, not
`"let myVar = anotherVar;"`. -/
theorem c2_let_roundtrip_rendering_fails :
    parse_tokens 10
        [⟨.Let, "let"⟩, ⟨.Ident, "myVar"⟩, ⟨.Assign, "="⟩,
          ⟨.Ident, "anotherVar"⟩, ⟨.Semicolon, ";"⟩, ⟨.Eof, ""⟩] =
      some (some ⟨[.Let ⟨⟨.Let, "let"⟩, ⟨⟨.Ident, "myVar"⟩, "myVar"⟩, none⟩]⟩,
        ⟨[], ⟨.Eof, ""⟩, ⟨.Eof, ""⟩, []⟩) ∧
    Program.print_string
        ⟨[.Let ⟨⟨.Let, "let"⟩, ⟨⟨.Ident, "myVar"⟩, "myVar"⟩, none⟩]⟩ =
      some "let myVar = ;" ∧
    ("let myVar = ;" : String) ≠ "let myVar = anotherVar;" :=
  ⟨rfl, rfl, by decide⟩

/-- Claim C3 counterexample: the claim says no statement node carrying a
failed (absent) expression is ever pushed.  False: on the stream `5 ;` the
`Int` token has no registered prefix rule, `parse_expression` fails, yet
`parse_expression_statement` still returns a statement, and `parse_program`
pushes an `Expression` statement node whose `expression` is `none`. -/
theorem c3_absent_expression_statement_pushed :
    parse_tokens 10 [⟨.Int, "5"⟩, ⟨.Semicolon, ";"⟩, ⟨.Eof, ""⟩] =
      some (some ⟨[.Expression ⟨⟨.Int, "5"⟩, none⟩]⟩,
        ⟨[], ⟨.Eof, ""⟩, ⟨.Eof, ""⟩, []⟩) :=
  rfl

/-- Claim C3 (amended), both halves.  First: a statement-rule invocation
that returns no statement (in this code, only `parse_let_statement` and
`parse_return_statement` on a failed lookahead return `none`) contributes no
node — the `parse_program` loop continues on the very same accumulator, so
subsequent statements are still attempted.  Second: the expression-statement
rule always contributes a node, and when the current token has no registered
prefix rule the contributed node carries an absent (`none`) expression. -/
theorem c3_failed_statement_contributes_no_node :
    (∀ (f : Nat) (st st1 : Parser) (acc : List StatementNode),
        st.cur_token_is .Eof = false →
        Parser.parse_statement f st = some (none, st1) →
        Parser.parse_program_loop (f + 1) st acc =
          Parser.parse_program_loop f st1.next_token acc) ∧
    (∀ st : Parser, prefix_parse_fns st.cur_token.kind = none →
        (Parser.parse_expression_statement st).1 =
          some (.Expression ⟨st.cur_token, none⟩)) := by
  constructor
  · intro f st st1 acc hEof hstmt
    rw [Parser.parse_program_loop]
    simp only [hEof, Bool.false_eq_true, if_false, hstmt]
  · intro st h
    unfold Parser.parse_expression_statement Parser.parse_expression
    rw [h]

/-- Claim C3 witness: both halves of the amended theorem applied at concrete
inputs — a `let` whose lookahead `Assign` fails the `Ident` assertion (the
failing statement rule appends no node and the loop continues on the
unchanged accumulator), and an expression statement at current token `Int`
(no prefix rule registered, node pushed with absent expression). -/
theorem c3_failed_statement_contributes_no_node_witness :
    Parser.parse_program_loop 2 ⟨[], ⟨.Let, "let"⟩, ⟨.Assign, "="⟩, []⟩ [] =
      Parser.parse_program_loop 1
        (Parser.next_token ⟨[], ⟨.Let, "let"⟩, ⟨.Assign, "="⟩,
          ["expected next token to be Ident, got Assign intead"]⟩) [] ∧
    (Parser.parse_expression_statement ⟨[], ⟨.Int, "5"⟩, ⟨.Eof, ""⟩, []⟩).1 =
      some (.Expression ⟨⟨.Int, "5"⟩, none⟩) :=
  ⟨c3_failed_statement_contributes_no_node.1 1
      ⟨[], ⟨.Let, "let"⟩, ⟨.Assign, "="⟩, []⟩
      ⟨[], ⟨.Let, "let"⟩, ⟨.Assign, "="⟩,
        ["expected next token to be Ident, got Assign intead"]⟩
      [] (by decide) rfl,
    c3_failed_statement_contributes_no_node.2
      ⟨[], ⟨.Int, "5"⟩, ⟨.Eof, ""⟩, []⟩ rfl⟩

/-- Claim C4 counterexample: the claim says that when the current token kind
has no registered prefix rule, `parse_expression` appends the error
`"no prefix parse function for <Kind> found"`.  False: with current token of
kind `Int` (no rule registered), `parse_expression` returns `none` and the
parser state — including the error list — is unchanged; no such message is
recorded. -/
theorem c4_no_error_recorded_on_missing_prefix_rule :
    Parser.parse_expression ⟨[], ⟨.Int, "5"⟩, ⟨.Eof, ""⟩, []⟩ .Lowest =
      (none, ⟨[], ⟨.Int, "5"⟩, ⟨.Eof, ""⟩, []⟩) ∧
    "no prefix parse function for Int found" ∉
      (Parser.parse_expression ⟨[], ⟨.Int, "5"⟩, ⟨.Eof, ""⟩, []⟩ .Lowest).2.errors :=
  ⟨rfl, by decide⟩

/-- Claim C4 (amended): when the current token kind has no registered prefix
rule, `parse_expression` returns no expression and records no error — the
parser state, error list included, is returned unchanged. -/
theorem c4_missing_prefix_rule_is_silent (st : Parser) (lvl : PredenceLevel)
    (h : prefix_parse_fns st.cur_token.kind = none) :
    Parser.parse_expression st lvl = (none, st) := by
  unfold Parser.parse_expression
  rw [h]

/-- Claim C4 witness: the amended theorem applied at the concrete parser
state whose current token is a `Semicolon` (no prefix rule registered). -/
theorem c4_missing_prefix_rule_is_silent_witness :
    Parser.parse_expression ⟨[], ⟨.Semicolon, ";"⟩, ⟨.Eof, ""⟩, []⟩ .Lowest =
      (none, ⟨[], ⟨.Semicolon, ";"⟩, ⟨.Eof, ""⟩, []⟩) :=
  c4_missing_prefix_rule_is_silent ⟨[], ⟨.Semicolon, ";"⟩, ⟨.Eof, ""⟩, []⟩ .Lowest rfl

/-- Claim C5: the spec's invariant says a `Let` value may be absent only in a
parse that reported errors.  False on the code: parsing `let x = 5;`
completes with an empty error list, yet the single Let statement's `value` is
`none` — `parse_let_statement` always leaves the value at its default. -/
theorem c5_error_free_parse_with_absent_let_value :
    parse_tokens 10
        [⟨.Let, "let"⟩, ⟨.Ident, "x"⟩, ⟨.Assign, "="⟩, ⟨.Int, "5"⟩,
          ⟨.Semicolon, ";"⟩, ⟨.Eof, ""⟩] =
      some (some ⟨[.Let ⟨⟨.Let, "let"⟩, ⟨⟨.Ident, "x"⟩, "x"⟩, none⟩]⟩,
        ⟨[], ⟨.Eof, ""⟩, ⟨.Eof, ""⟩, []⟩) :=
  rfl

/-- Claim C6: parsing the token stream of `let = 5;` (kinds Let, Assign, Int,
Semicolon, EndOfFile) records exactly one error (from the failed `Ident`
lookahead), every step is total on this input (the fuel-based run returns a
result at fuel 10), and `parse_program` still returns a `Program` value —
here with two recovered (empty) expression statements. -/
theorem c6_missing_ident_accumulates_error_and_returns_program :
    parse_tokens 10
        [⟨.Let, "let"⟩, ⟨.Assign, "="⟩, ⟨.Int, "5"⟩, ⟨.Semicolon, ";"⟩, ⟨.Eof, ""⟩] =
      some (some ⟨[.Expression ⟨⟨.Assign, "="⟩, none⟩,
                   .Expression ⟨⟨.Int, "5"⟩, none⟩]⟩,
        ⟨[], ⟨.Eof, ""⟩, ⟨.Eof, ""⟩,
          ["expected next token to be Ident, got Assign intead"]⟩) :=
  rfl

/-- Claim C7 counterexample: the claim says the diagnostic ends with the
literal word "instead".  False: the source's format string misspells it, so
a failed `expect_peek` for `Ident` against a peeked `Assign` records
`"... got Assign intead"`, which differs from the claimed
`"... got Assign instead"`. -/
theorem c7_diagnostic_says_intead_not_instead :
    (Parser.expect_peek ⟨[], ⟨.Let, "let"⟩, ⟨.Assign, "="⟩, []⟩ .Ident).2.errors =
      ["expected next token to be Ident, got Assign intead"] ∧
    ("expected next token to be Ident, got Assign intead" : String) ≠
      "expected next token to be Ident, got Assign instead" :=
  ⟨rfl, by decide⟩

/-- Claim C7 (amended): every diagnostic produced by a failed lookahead
assertion is exactly
`"expected next token to be <Kind>, got <Kind> intead"` — the expected kind
and the actual peek-token kind substituted via their `Display` rendering, and
the final word misspelled "intead" in the source. -/
theorem c7_peek_error_message_format (st : Parser) (k : TokenKind)
    (h : st.peek_token.kind ≠ k) :
    (Parser.expect_peek st k).2.errors =
      st.errors ++
        ["expected next token to be " ++ k.display ++ ", got " ++
          st.peek_token.kind.display ++ " intead"] := by
  unfold Parser.expect_peek Parser.peek_token_is Parser.peek_error
  simp [h]

/-- Claim C7 witness: the amended theorem applied at the concrete state
peeking an `Int` while expecting an `Ident`. -/
theorem c7_peek_error_message_format_witness :
    (Parser.expect_peek ⟨[], ⟨.Let, "let"⟩, ⟨.Int, "5"⟩, []⟩ .Ident).2.errors =
      ([] : List String) ++
        ["expected next token to be " ++ TokenKind.display .Ident ++ ", got " ++
          TokenKind.display .Int ++ " intead"] :=
  c7_peek_error_message_format ⟨[], ⟨.Let, "let"⟩, ⟨.Int, "5"⟩, []⟩ .Ident (by decide)

/-- Claim C8: rendering a prefix node through the `PrefixExpression` struct
is fully parenthesized — `!`/`5` gives `"(!5)"` and `-`/`15` gives
`"(-15)"` — but the claim also requires this through the `ExpressionNode`
dispatch, and there the source's match has no arm for the `Prefic` variant
(a non-exhaustive match, modelled `none`), so dispatch rendering yields no
string at all. -/
theorem c8_prefix_rendering_direct_but_not_dispatch :
    PrefixExpression.print_string ⟨⟨.Bang, "!"⟩, "!", .Integer ⟨⟨.Int, "5"⟩, 5⟩⟩ =
      some "(!5)" ∧
    PrefixExpression.print_string ⟨⟨.Minus, "-"⟩, "-", .Integer ⟨⟨.Int, "15"⟩, 15⟩⟩ =
      some "(-15)" ∧
    ExpressionNode.print_string
        (PrefixExpression.toExpressionNode ⟨⟨.Bang, "!"⟩, "!", .Integer ⟨⟨.Int, "5"⟩, 5⟩⟩) =
      none :=
  ⟨rfl, rfl, rfl⟩

/-- Claim C9: whenever `parse_program` terminates (the fuel-based run returns
a result), the `Option<Program>` it returns is `Some` — the `None` case of
the Rust return type is unreachable, since the single return site wraps the
program in `Some`. -/
theorem c9_parse_program_never_returns_none (fuel : Nat) (st : Parser)
    (r : Option Program × Parser) (h : Parser.parse_program fuel st = some r) :
    r.1.isSome = true := by
  unfold Parser.parse_program at h
  cases hl : Parser.parse_program_loop fuel st [] with
  | none => rw [hl] at h; cases h
  | some p =>
    obtain ⟨stmts, st1⟩ := p
    rw [hl] at h
    cases h
    rfl

/-- Claim C9 witness: the theorem applied to the terminating run on the
stream consisting of a single Eof token. -/
theorem c9_parse_program_never_returns_none_witness :
    ((some (⟨[]⟩ : Program),
        (⟨[], ⟨.Eof, ""⟩, ⟨.Eof, ""⟩, []⟩ : Parser)) :
      Option Program × Parser).1.isSome = true :=
  c9_parse_program_never_returns_none 1 (Parser.new [⟨.Eof, ""⟩])
    (some ⟨[]⟩, ⟨[], ⟨.Eof, ""⟩, ⟨.Eof, ""⟩, []⟩) rfl

/-- Claim C10: `PrefixExpression::token_literal`'s body is the unconditional
self-call `self.token_literal().clone()` with no base case; in the
fuel-indexed model every amount of unfolding fuel is exhausted without ever
producing the underlying token's literal (or any value). -/
theorem c10_prefix_expression_token_literal_never_returns (fuel : Nat)
    (p : PrefixExpression) :
    PrefixExpression.token_literal fuel p = none := by
  induction fuel with
  | zero => rfl
  | succ f ih => exact ih

end Monkey
